import Mathlib

/- The Batteries rational arithmetic is irreducible by default, which
blocks kernel evaluation of concrete runs; restore the usual
definitional transparency for this development. -/
attribute [local semireducible] Rat.add Rat.mul Rat.sub Rat.inv Rat.ofScientific

/-!
Shallow embedding of the retrying HTTP client in src/_http.py
(class _HttpClient: _is_retryable_exception, _is_retryable_status,
_compute_backoff, request), together with theorems settling the
frozen claims about its specification.

Modelling conventions:
* Python floats are modelled as rationals.
* The transport (requests.Session.request) is a function from the call
  index to an outcome: a response object or a raised exception.
* The private RNG (self._rand) is an injected stream of random() draws
  in [0, 1); the client state tracks the position in that stream, and
  random.Random.uniform(a, b) is a + (b - a) * random().
* Observable side effects (transport calls, response.close(), sleeps)
  are recorded as an event trace.
* Exceptions are modelled by the classification-relevant kind plus an
  identity tag, so that re-raising "the very same object" is expressible.
  A raised failure of the close() operation is modelled by a boolean on
  the response (only Exception-derived faults, which the source catches
  and swallows at both close sites, are modelled).
-/

namespace HttpRetry

/-- Kinds of exceptions the transport can raise, as distinguished by
_is_retryable_exception: requests.Timeout, requests.ConnectionError,
urllib3 ProtocolError, http.client.IncompleteRead,
http.client.BadStatusLine, and anything else. -/
inductive ExcKind where
  | timeout
  | connectionError
  | protocolError
  | incompleteRead
  | badStatusLine
  | other
deriving DecidableEq, Repr

/-- An exception object: its classification kind and an identity tag
(two exceptions with the same tag are the same object). -/
structure Exc where
  kind : ExcKind
  eid : Nat
deriving DecidableEq, Repr

/-- A response object: status code, optional Retry-After header value,
whether close() raises (an Exception), and an identity tag. -/
structure Resp where
  status : Nat
  retryAfter : Option String
  closeRaises : Bool
  rid : Nat
deriving DecidableEq, Repr

/-- One transport outcome: the session call returns a response or raises. -/
inductive TOutcome where
  | resp (r : Resp)
  | exc (e : Exc)
deriving DecidableEq, Repr

/-- Observable events of one request() call, in order:
a transport call (by index), a response close() attempt (recording
whether close raised and was swallowed), and a sleep of a duration. -/
inductive Ev where
  | call (i : Nat)
  | closeResp (rid : Nat) (raised : Bool)
  | sleep (d : ℚ)
deriving DecidableEq, Repr

/-- The caller-visible outcome of request(): the response returned,
an HTTPError raised by raise_for_status() on that response, or a
re-raised transport exception. -/
inductive Outcome where
  | returned (r : Resp)
  | raisedHTTPError (r : Resp)
  | raisedExc (e : Exc)
deriving DecidableEq, Repr

/-- Result of one request() call: outcome, event trace, and the final
position in the random stream. -/
structure RunResult where
  outcome : Outcome
  events : List Ev
  rngIdxAfter : Nat
deriving DecidableEq, Repr

/-- The effective retry configuration resolved for one call
(lines 127-130 of src/_http.py). -/
structure EffPolicy where
  max_retries : Nat
  backoff_base : ℚ
  backoff_jitter : ℚ
  max_backoff_total : ℚ
deriving DecidableEq, Repr

/-- The _HttpClient state: the four construction-time retry defaults
and the position of the private RNG in its draw stream. -/
structure Client where
  max_retries : Nat
  backoff_base : ℚ
  backoff_jitter : ℚ
  max_backoff_total : ℚ
  rngIdx : Nat
deriving DecidableEq, Repr

/-- _HttpClient._is_retryable_exception (lines 65-77): retryable iff the
exception is a Timeout, ConnectionError, ProtocolError, IncompleteRead
or BadStatusLine. -/
def is_retryable_exception (e : Exc) : Bool :=
  match e.kind with
  | .timeout => true
  | .connectionError => true
  | .protocolError => true
  | .incompleteRead => true
  | .badStatusLine => true
  | .other => false

/-- _HttpClient._is_retryable_status (lines 79-85). -/
def is_retryable_status (status : Nat) : Bool :=
  if status = 429 then true
  else if 500 ≤ status ∧ status ≤ 599 then true
  else false

/-- Python str.strip() on a character list (ASCII whitespace; unicode
whitespace is not modelled). -/
def pyStrip (cs : List Char) : List Char :=
  ((cs.dropWhile Char.isWhitespace).reverse.dropWhile Char.isWhitespace).reverse

/-- Digits of a Python int literal after the first: decimal digits with
single underscores allowed between digits. -/
def parseUDigitsAux : Nat → List Char → Option Nat
  | acc, [] => some acc
  | acc, c :: cs =>
    if c.isDigit then parseUDigitsAux (10 * acc + (c.toNat - 48)) cs
    else if c = '_' then
      match cs with
      | [] => none
      | d :: cs2 =>
        if d.isDigit then parseUDigitsAux (10 * acc + (d.toNat - 48)) cs2 else none
    else none

/-- Unsigned body of a Python int literal: nonempty, starts and ends with
a digit, single underscores between digits. -/
def parseUDigits : List Char → Option Nat
  | [] => none
  | c :: cs => if c.isDigit then parseUDigitsAux (c.toNat - 48) cs else none

/-- Python int(s) for a decimal string: surrounding whitespace stripped,
optional sign, ASCII digits with underscore grouping; none models the
ValueError raised for anything else. (Non-ASCII digits are not modelled.) -/
def pyInt (s : String) : Option Int :=
  match pyStrip s.data with
  | [] => none
  | c :: cs =>
    if c = '-' then (parseUDigits cs).map (fun n => -(n : Int))
    else if c = '+' then (parseUDigits cs).map (fun n => (n : Int))
    else (parseUDigits (c :: cs)).map (fun n => (n : Int))

/-- random.Random.uniform(a, b) = a + (b - a) * random(). -/
def uniform (a b u : ℚ) : ℚ := a + (b - a) * u

/-- _HttpClient._compute_backoff (lines 87-91); u is the random() draw
backing the uniform(0.0, max(0.0, jitter)) call. -/
def compute_backoff (attempt_index : Nat) (base jitter u : ℚ) : ℚ :=
  let expo := base * 2 ^ (attempt_index - 1)
  let jitter_part := if 0 < jitter then uniform 0 (max 0 jitter) u else 0
  expo + jitter_part

/-- _compute_backoff together with its effect on the RNG stream: the
uniform draw is consumed exactly when jitter > 0. -/
def computeBackoffDraw (rng : Nat → ℚ) (rngIdx attempt_index : Nat) (base jitter : ℚ) :
    ℚ × Nat :=
  if 0 < jitter then (compute_backoff attempt_index base jitter (rng rngIdx), rngIdx + 1)
  else (compute_backoff attempt_index base jitter 0, rngIdx)

/-- Lines 171-179: the Retry-After header value as seconds, when present
and parsing (after strip) as a non-negative integer; otherwise none
(invalid formats raise inside int(), are caught, and fall through). -/
def retryAfterSeconds (r : Resp) : Option ℚ :=
  match r.retryAfter with
  | none => none
  | some ra =>
    match pyInt ra with
    | some v => if 0 ≤ v then some (v : ℚ) else none
    | none => none

/-- Lines 168-179: the Retry-After override is consulted only when the
status is exactly 429. -/
def retryAfterOverride (r : Resp) : Option ℚ :=
  if r.status = 429 then retryAfterSeconds r else none

/-- Lines 168-182: the proposed sleep for a retryable-status response and
the RNG position after it: the Retry-After override if applicable,
otherwise the computed backoff for attempt index attempts + 1. -/
def sleepStep (rng : Nat → ℚ) (base jitter : ℚ) (r : Resp) (attempts rngIdx : Nat) :
    ℚ × Nat :=
  match retryAfterOverride r with
  | some v => (v, rngIdx)
  | none => computeBackoffDraw rng rngIdx (attempts + 1) base jitter

/-- Final outcome handling, lines 258-275, reached when the loop breaks
with a response: if last_exception is set it is re-raised; otherwise
raise_for_status() raises HTTPError for a 4xx/5xx status (closing the
response first when not streaming, that close failure being swallowed),
and the response is returned for any other status. Returns the outcome
and the extra close events emitted. -/
def finalize (stream : Bool) (lastExc : Option Exc) (r : Resp) : Outcome × List Ev :=
  match lastExc with
  | some e => (.raisedExc e, [])
  | none =>
    if 400 ≤ r.status ∧ r.status ≤ 599 then
      if stream then (.raisedHTTPError r, [])
      else (.raisedHTTPError r, [Ev.closeResp r.rid r.closeRaises])
    else (.returned r, [])

/-- A loop break that falls through to final outcome handling with the
current response, having made the transport call of index attempts. -/
def breakResult (stream : Bool) (lastExc : Option Exc) (r : Resp) (attempts rngIdx : Nat) :
    RunResult :=
  ⟨(finalize stream lastExc r).1, Ev.call attempts :: (finalize stream lastExc r).2, rngIdx⟩

/-- The while-loop of request() (lines 137-256) followed by final outcome
handling. retriesLeft is eff_max_retries - attempts, so the source test
attempts >= eff_max_retries is retriesLeft = 0; recursion is structural
on retriesLeft. cum is cumulative_sleep, rngIdx the RNG position, and
lastExc the last_exception variable (never cleared by the source). -/
def requestLoop (pol : EffPolicy) (transport : Nat → TOutcome) (rng : Nat → ℚ)
    (stream : Bool) (retriesLeft attempts : Nat) (cum : ℚ) (rngIdx : Nat)
    (lastExc : Option Exc) : RunResult :=
  match transport attempts with
  | .resp r =>
    if ¬ is_retryable_status r.status then
      -- line 160-162: non-retryable status, break to final handling
      breakResult stream lastExc r attempts rngIdx
    else
      match retriesLeft with
      | 0 =>
        -- line 165-166: attempts >= eff_max_retries, break
        breakResult stream lastExc r attempts rngIdx
      | rl + 1 =>
        let s := (sleepStep rng pol.backoff_base pol.backoff_jitter r attempts rngIdx).1
        let ri := (sleepStep rng pol.backoff_base pol.backoff_jitter r attempts rngIdx).2
        if cum + s > pol.max_backoff_total then
          if max 0 (pol.max_backoff_total - cum) ≤ 0 then
            -- line 188-196: budget exhausted, break
            breakResult stream lastExc r attempts ri
          else
            -- line 197-198: clip to the remaining budget, then close,
            -- sleep, count the attempt, continue (lines 211-220)
            let rest := requestLoop pol transport rng stream rl (attempts + 1)
              (cum + max 0 (pol.max_backoff_total - cum)) ri lastExc
            ⟨rest.outcome,
             Ev.call attempts :: Ev.closeResp r.rid r.closeRaises ::
               Ev.sleep (max 0 (pol.max_backoff_total - cum)) :: rest.events,
             rest.rngIdxAfter⟩
        else
          let rest := requestLoop pol transport rng stream rl (attempts + 1) (cum + s) ri lastExc
          ⟨rest.outcome,
           Ev.call attempts :: Ev.closeResp r.rid r.closeRaises :: Ev.sleep s :: rest.events,
           rest.rngIdxAfter⟩
  | .exc e =>
    -- lines 222-225: last_exception = exc, then break if non-retryable
    -- or out of retries (final handling re-raises exactly e)
    if ¬ is_retryable_exception e then
      ⟨.raisedExc e, [Ev.call attempts], rngIdx⟩
    else
      match retriesLeft with
      | 0 => ⟨.raisedExc e, [Ev.call attempts], rngIdx⟩
      | rl + 1 =>
        let s := (computeBackoffDraw rng rngIdx (attempts + 1)
          pol.backoff_base pol.backoff_jitter).1
        let ri := (computeBackoffDraw rng rngIdx (attempts + 1)
          pol.backoff_base pol.backoff_jitter).2
        if cum + s > pol.max_backoff_total then
          if max 0 (pol.max_backoff_total - cum) ≤ 0 then
            ⟨.raisedExc e, [Ev.call attempts], ri⟩
          else
            let rest := requestLoop pol transport rng stream rl (attempts + 1)
              (cum + max 0 (pol.max_backoff_total - cum)) ri (some e)
            ⟨rest.outcome,
             Ev.call attempts :: Ev.sleep (max 0 (pol.max_backoff_total - cum)) :: rest.events,
             rest.rngIdxAfter⟩
        else
          let rest := requestLoop pol transport rng stream rl (attempts + 1) (cum + s) ri (some e)
          ⟨rest.outcome, Ev.call attempts :: Ev.sleep s :: rest.events, rest.rngIdxAfter⟩
termination_by structural retriesLeft

/-- Per-call override resolution (lines 127-130): each of the four retry
fields falls back to the client default when no override is given. -/
def resolvePolicy (c : Client) (max_retries : Option Nat)
    (backoff_base backoff_jitter max_backoff_total : Option ℚ) : EffPolicy :=
  ⟨max_retries.getD c.max_retries,
   backoff_base.getD c.backoff_base,
   backoff_jitter.getD c.backoff_jitter,
   max_backoff_total.getD c.max_backoff_total⟩

/-- _HttpClient.request: resolve the effective policy, run the retry loop
from a fresh attempt state (attempts = 0, cumulative_sleep = 0,
last_exception = None), and return the result together with the client
state the method leaves behind (the source assigns to no configuration
field of self; only the private RNG advances). -/
def request (c : Client) (transport : Nat → TOutcome) (rng : Nat → ℚ) (stream : Bool)
    (max_retries : Option Nat) (backoff_base backoff_jitter max_backoff_total : Option ℚ) :
    RunResult × Client :=
  let pol := resolvePolicy c max_retries backoff_base backoff_jitter max_backoff_total
  let res := requestLoop pol transport rng stream pol.max_retries 0 0 c.rngIdx none
  (res, { c with rngIdx := res.rngIdxAfter })

/-- Construction-time defaults of _HttpClient (lines 40-43), RNG at the
start of its stream. -/
def defaultClient : Client := ⟨3, 1/2, 1/5, 15, 0⟩

/-- Whether an event is a transport call. -/
def isCallEv : Ev → Bool
  | .call _ => true
  | _ => false

/-- Number of transport calls recorded in a trace. -/
def numCalls (evs : List Ev) : Nat := (evs.filter isCallEv).length

/-- Seconds slept by one event. -/
def sleepAmt : Ev → ℚ
  | .sleep d => d
  | _ => 0

/-- Total seconds slept in a trace. -/
def sleepSum (evs : List Ev) : ℚ := (evs.map sleepAmt).sum

/-- For a transport script consisting only of responses: the proposed
sleep of the retry made after attempt i, together with the RNG position
after it, starting from RNG position ri0. -/
def proposedSeq (pol : EffPolicy) (resp : Nat → Resp) (rng : Nat → ℚ) (ri0 : Nat) :
    Nat → ℚ × Nat
  | 0 => sleepStep rng pol.backoff_base pol.backoff_jitter (resp 0) 0 ri0
  | i + 1 =>
    sleepStep rng pol.backoff_base pol.backoff_jitter (resp (i + 1)) (i + 1)
      (proposedSeq pol resp rng ri0 i).2

/-- Cumulative sleep before attempt i for an all-response script, when no
sleep is capped: the sum of the first i proposed sleeps. -/
def cumAt (pol : EffPolicy) (resp : Nat → Resp) (rng : Nat → ℚ) (ri0 : Nat) : Nat → ℚ
  | 0 => 0
  | i + 1 => cumAt pol resp rng ri0 i + (proposedSeq pol resp rng ri0 i).1

/-- RNG position at the start of attempt i for an all-response script. -/
def riAt (pol : EffPolicy) (resp : Nat → Resp) (rng : Nat → ℚ) (ri0 : Nat) : Nat → Nat
  | 0 => ri0
  | i + 1 => (proposedSeq pol resp rng ri0 i).2

/-- A response with the close() failure flag cleared. -/
def scrubResp (r : Resp) : Resp := ⟨r.status, r.retryAfter, false, r.rid⟩

/-- A transport outcome with the close() failure flag cleared. -/
def scrubT : TOutcome → TOutcome
  | .resp r => .resp (scrubResp r)
  | .exc e => .exc e

/-- An event with the recorded close() failure flag cleared. -/
def scrubEv : Ev → Ev
  | .closeResp rid _ => .closeResp rid false
  | e => e

/-- A caller-visible outcome with the close() failure flag cleared. -/
def scrubOutcome : Outcome → Outcome
  | .returned r => .returned (scrubResp r)
  | .raisedHTTPError r => .raisedHTTPError (scrubResp r)
  | .raisedExc e => .raisedExc e

/-- Script for claim C1: the first attempt raises a retryable Timeout,
the second returns a 200 response. -/
def c1Transport : Nat → TOutcome
  | 0 => .exc ⟨.timeout, 0⟩
  | _ => .resp ⟨200, none, false, 1⟩

/-- Script for claim C3: every attempt returns 429 with Retry-After 0. -/
def c3Transport : Nat → TOutcome := fun i => .resp ⟨429, some "0", false, i⟩

/-- Script of plain 503 responses. -/
def c5Transport : Nat → TOutcome := fun i => .resp ⟨503, none, false, i⟩

/-- The 503 responses of c5Transport. -/
def c5Resp : Nat → Resp := fun i => ⟨503, none, false, i⟩

/-- Script of non-retryable transport faults. -/
def c7Transport : Nat → TOutcome := fun _ => .exc ⟨.other, 5⟩

end HttpRetry

namespace HttpRetry

/-! Helper lemmas: one-step unfoldings of the retry loop, one per source
branch, and small facts about traces and classification. None of them is
the theorem, witness or counterexample of a claim. -/

theorem loop_resp_terminal {pol : EffPolicy} {transport : Nat → TOutcome} {rng : Nat → ℚ}
    {stream : Bool} {a : Nat} {r : Resp} (htr : transport a = .resp r)
    (h : is_retryable_status r.status = false) (rl : Nat) (cum : ℚ) (ri : Nat)
    (lastE : Option Exc) :
    requestLoop pol transport rng stream rl a cum ri lastE = breakResult stream lastE r a ri := by
  rw [requestLoop.eq_def]
  simp [htr, h]

theorem loop_resp_exhausted {pol : EffPolicy} {transport : Nat → TOutcome} {rng : Nat → ℚ}
    {stream : Bool} {a : Nat} {r : Resp} (htr : transport a = .resp r)
    (h : is_retryable_status r.status = true) (cum : ℚ) (ri : Nat) (lastE : Option Exc) :
    requestLoop pol transport rng stream 0 a cum ri lastE = breakResult stream lastE r a ri := by
  rw [requestLoop.eq_def]
  simp [htr, h]

theorem loop_resp_uncapped {pol : EffPolicy} {transport : Nat → TOutcome} {rng : Nat → ℚ}
    {stream : Bool} {a : Nat} {r : Resp} (htr : transport a = .resp r)
    (h : is_retryable_status r.status = true) (rl : Nat) {cum : ℚ} {ri : Nat}
    (lastE : Option Exc)
    (hno : ¬ cum + (sleepStep rng pol.backoff_base pol.backoff_jitter r a ri).1
        > pol.max_backoff_total) :
    requestLoop pol transport rng stream (rl + 1) a cum ri lastE =
      ⟨(requestLoop pol transport rng stream rl (a + 1)
          (cum + (sleepStep rng pol.backoff_base pol.backoff_jitter r a ri).1)
          (sleepStep rng pol.backoff_base pol.backoff_jitter r a ri).2 lastE).outcome,
       Ev.call a :: Ev.closeResp r.rid r.closeRaises ::
         Ev.sleep (sleepStep rng pol.backoff_base pol.backoff_jitter r a ri).1 ::
         (requestLoop pol transport rng stream rl (a + 1)
           (cum + (sleepStep rng pol.backoff_base pol.backoff_jitter r a ri).1)
           (sleepStep rng pol.backoff_base pol.backoff_jitter r a ri).2 lastE).events,
       (requestLoop pol transport rng stream rl (a + 1)
         (cum + (sleepStep rng pol.backoff_base pol.backoff_jitter r a ri).1)
         (sleepStep rng pol.backoff_base pol.backoff_jitter r a ri).2 lastE).rngIdxAfter⟩ := by
  rw [requestLoop.eq_def]
  simp [htr, h, hno]

theorem loop_resp_capped {pol : EffPolicy} {transport : Nat → TOutcome} {rng : Nat → ℚ}
    {stream : Bool} {a : Nat} {r : Resp} (htr : transport a = .resp r)
    (h : is_retryable_status r.status = true) (rl : Nat) {cum : ℚ} {ri : Nat}
    (lastE : Option Exc)
    (hover : cum + (sleepStep rng pol.backoff_base pol.backoff_jitter r a ri).1
        > pol.max_backoff_total)
    (hrem : 0 < pol.max_backoff_total - cum) :
    requestLoop pol transport rng stream (rl + 1) a cum ri lastE =
      ⟨(requestLoop pol transport rng stream rl (a + 1) pol.max_backoff_total
          (sleepStep rng pol.backoff_base pol.backoff_jitter r a ri).2 lastE).outcome,
       Ev.call a :: Ev.closeResp r.rid r.closeRaises ::
         Ev.sleep (pol.max_backoff_total - cum) ::
         (requestLoop pol transport rng stream rl (a + 1) pol.max_backoff_total
           (sleepStep rng pol.backoff_base pol.backoff_jitter r a ri).2 lastE).events,
       (requestLoop pol transport rng stream rl (a + 1) pol.max_backoff_total
         (sleepStep rng pol.backoff_base pol.backoff_jitter r a ri).2 lastE).rngIdxAfter⟩ := by
  have hmax : max 0 (pol.max_backoff_total - cum) = pol.max_backoff_total - cum :=
    max_eq_right hrem.le
  have hnle : ¬ max 0 (pol.max_backoff_total - cum) ≤ 0 := by
    rw [hmax]; exact not_le.mpr hrem
  have hcs : cum + (pol.max_backoff_total - cum) = pol.max_backoff_total := by ring
  rw [requestLoop.eq_def]
  simp [htr, h, hover, hnle, hmax, hcs]
  all_goals first
  | (intro hle; linarith)
  | linarith

theorem loop_resp_capzero {pol : EffPolicy} {transport : Nat → TOutcome} {rng : Nat → ℚ}
    {stream : Bool} {a : Nat} {r : Resp} (htr : transport a = .resp r)
    (h : is_retryable_status r.status = true) (rl : Nat) {cum : ℚ} {ri : Nat}
    (lastE : Option Exc)
    (hover : cum + (sleepStep rng pol.backoff_base pol.backoff_jitter r a ri).1
        > pol.max_backoff_total)
    (hrem : pol.max_backoff_total - cum ≤ 0) :
    requestLoop pol transport rng stream (rl + 1) a cum ri lastE =
      breakResult stream lastE r a
        (sleepStep rng pol.backoff_base pol.backoff_jitter r a ri).2 := by
  have hle : max 0 (pol.max_backoff_total - cum) ≤ 0 := max_le le_rfl hrem
  rw [requestLoop.eq_def]
  simp [htr, h, hover, hle]

theorem loop_exc_nonretry {pol : EffPolicy} {transport : Nat → TOutcome} {rng : Nat → ℚ}
    {stream : Bool} {a : Nat} {e : Exc} (htr : transport a = .exc e)
    (h : is_retryable_exception e = false) (rl : Nat) (cum : ℚ) (ri : Nat)
    (lastE : Option Exc) :
    requestLoop pol transport rng stream rl a cum ri lastE =
      ⟨.raisedExc e, [Ev.call a], ri⟩ := by
  rw [requestLoop.eq_def]
  simp [htr, h]

theorem loop_exc_exhausted {pol : EffPolicy} {transport : Nat → TOutcome} {rng : Nat → ℚ}
    {stream : Bool} {a : Nat} {e : Exc} (htr : transport a = .exc e)
    (h : is_retryable_exception e = true) (cum : ℚ) (ri : Nat) (lastE : Option Exc) :
    requestLoop pol transport rng stream 0 a cum ri lastE =
      ⟨.raisedExc e, [Ev.call a], ri⟩ := by
  rw [requestLoop.eq_def]
  simp [htr, h]

theorem loop_exc_uncapped {pol : EffPolicy} {transport : Nat → TOutcome} {rng : Nat → ℚ}
    {stream : Bool} {a : Nat} {e : Exc} (htr : transport a = .exc e)
    (h : is_retryable_exception e = true) (rl : Nat) {cum : ℚ} {ri : Nat}
    (lastE : Option Exc)
    (hno : ¬ cum + (computeBackoffDraw rng ri (a + 1) pol.backoff_base pol.backoff_jitter).1
        > pol.max_backoff_total) :
    requestLoop pol transport rng stream (rl + 1) a cum ri lastE =
      ⟨(requestLoop pol transport rng stream rl (a + 1)
          (cum + (computeBackoffDraw rng ri (a + 1) pol.backoff_base pol.backoff_jitter).1)
          (computeBackoffDraw rng ri (a + 1) pol.backoff_base pol.backoff_jitter).2
          (some e)).outcome,
       Ev.call a ::
         Ev.sleep (computeBackoffDraw rng ri (a + 1) pol.backoff_base pol.backoff_jitter).1 ::
         (requestLoop pol transport rng stream rl (a + 1)
           (cum + (computeBackoffDraw rng ri (a + 1) pol.backoff_base pol.backoff_jitter).1)
           (computeBackoffDraw rng ri (a + 1) pol.backoff_base pol.backoff_jitter).2
           (some e)).events,
       (requestLoop pol transport rng stream rl (a + 1)
         (cum + (computeBackoffDraw rng ri (a + 1) pol.backoff_base pol.backoff_jitter).1)
         (computeBackoffDraw rng ri (a + 1) pol.backoff_base pol.backoff_jitter).2
         (some e)).rngIdxAfter⟩ := by
  rw [requestLoop.eq_def]
  simp [htr, h, hno]

theorem loop_exc_capped {pol : EffPolicy} {transport : Nat → TOutcome} {rng : Nat → ℚ}
    {stream : Bool} {a : Nat} {e : Exc} (htr : transport a = .exc e)
    (h : is_retryable_exception e = true) (rl : Nat) {cum : ℚ} {ri : Nat}
    (lastE : Option Exc)
    (hover : cum + (computeBackoffDraw rng ri (a + 1) pol.backoff_base pol.backoff_jitter).1
        > pol.max_backoff_total)
    (hrem : 0 < pol.max_backoff_total - cum) :
    requestLoop pol transport rng stream (rl + 1) a cum ri lastE =
      ⟨(requestLoop pol transport rng stream rl (a + 1) pol.max_backoff_total
          (computeBackoffDraw rng ri (a + 1) pol.backoff_base pol.backoff_jitter).2
          (some e)).outcome,
       Ev.call a :: Ev.sleep (pol.max_backoff_total - cum) ::
         (requestLoop pol transport rng stream rl (a + 1) pol.max_backoff_total
           (computeBackoffDraw rng ri (a + 1) pol.backoff_base pol.backoff_jitter).2
           (some e)).events,
       (requestLoop pol transport rng stream rl (a + 1) pol.max_backoff_total
         (computeBackoffDraw rng ri (a + 1) pol.backoff_base pol.backoff_jitter).2
         (some e)).rngIdxAfter⟩ := by
  have hmax : max 0 (pol.max_backoff_total - cum) = pol.max_backoff_total - cum :=
    max_eq_right hrem.le
  have hnle : ¬ max 0 (pol.max_backoff_total - cum) ≤ 0 := by
    rw [hmax]; exact not_le.mpr hrem
  have hcs : cum + (pol.max_backoff_total - cum) = pol.max_backoff_total := by ring
  rw [requestLoop.eq_def]
  simp [htr, h, hover, hnle, hmax, hcs]
  all_goals first
  | (intro hle; linarith)
  | linarith

theorem loop_events_head (pol : EffPolicy) (transport : Nat → TOutcome) (rng : Nat → ℚ)
    (stream : Bool) (rl a : Nat) (cum : ℚ) (ri : Nat) (lastE : Option Exc) :
    (requestLoop pol transport rng stream rl a cum ri lastE).events.head?
      = some (Ev.call a) := by
  rw [requestLoop.eq_def]
  rcases htr : transport a with r | e
  · by_cases hst : is_retryable_status r.status
    · cases rl with
      | zero => simp [hst, breakResult]
      | succ rl =>
        by_cases hover : cum + (sleepStep rng pol.backoff_base pol.backoff_jitter r a ri).1
            > pol.max_backoff_total
        · by_cases hz : max 0 (pol.max_backoff_total - cum) ≤ 0
          · simp [hst, hover, hz, breakResult]
          · simp [hst, hover, hz, breakResult]
        · simp [hst, hover, breakResult]
    · simp [hst, breakResult]
  · by_cases hre : is_retryable_exception e
    · cases rl with
      | zero => simp [hre]
      | succ rl =>
        by_cases hover : cum + (computeBackoffDraw rng ri (a + 1)
            pol.backoff_base pol.backoff_jitter).1 > pol.max_backoff_total
        · by_cases hz : max 0 (pol.max_backoff_total - cum) ≤ 0
          · simp [hre, hover, hz]
          · simp [hre, hover, hz]
        · simp [hre, hover]
    · simp [hre]

theorem retryable_status_range {s : Nat} (h : is_retryable_status s = true) :
    400 ≤ s ∧ s ≤ 599 := by
  by_cases h429 : s = 429
  · omega
  · have : 500 ≤ s ∧ s ≤ 599 := by
      by_contra hc
      simp [is_retryable_status, h429, hc] at h
    omega

theorem finalize_retryable {stream : Bool} {r : Resp}
    (h : is_retryable_status r.status = true) :
    finalize stream none r
      = (.raisedHTTPError r, if stream then [] else [Ev.closeResp r.rid r.closeRaises]) := by
  have hr := retryable_status_range h
  by_cases hs : stream <;> simp [finalize, hs, hr.1, hr.2]

theorem numCalls_nil : numCalls [] = 0 := rfl

theorem numCalls_cons (e : Ev) (l : List Ev) :
    numCalls (e :: l) = (if isCallEv e then 1 else 0) + numCalls l := by
  by_cases h : isCallEv e <;> simp [numCalls, List.filter, h] <;> omega

theorem numCalls_finalize (stream : Bool) (lastE : Option Exc) (r : Resp) :
    numCalls (finalize stream lastE r).2 = 0 := by
  rcases lastE with _ | e
  · by_cases hst : stream <;>
      by_cases hr : 400 ≤ r.status ∧ r.status ≤ 599 <;>
        simp [finalize, hst, hr, numCalls, isCallEv, List.filter]
  · simp [finalize, numCalls, List.filter]

theorem numCalls_breakResult (stream : Bool) (lastE : Option Exc) (r : Resp) (a ri : Nat) :
    numCalls (breakResult stream lastE r a ri).events = 1 := by
  rw [breakResult]
  rw [numCalls_cons]
  rw [numCalls_finalize]
  rfl

theorem sleepSum_nil : sleepSum [] = 0 := rfl

theorem sleepSum_cons (e : Ev) (l : List Ev) :
    sleepSum (e :: l) = sleepAmt e + sleepSum l := by
  simp [sleepSum]

theorem sleepSum_zero_of_forall {l : List Ev} (h : ∀ e ∈ l, sleepAmt e = 0) :
    sleepSum l = 0 := by
  induction l with
  | nil => rfl
  | cons e t ih =>
    rw [sleepSum_cons, h e (by simp), ih fun x hx => h x (by simp [hx])]
    ring

theorem prefix_cons_cases {p l : List Ev} {e : Ev} (h : p <+: e :: l) :
    p = [] ∨ ∃ q, p = e :: q ∧ q <+: l := by
  rcases h with ⟨t, ht⟩
  cases p with
  | nil => exact Or.inl rfl
  | cons x xs =>
    injection ht with h1 h2
    exact Or.inr ⟨xs, by rw [h1], ⟨t, h2⟩⟩

theorem sleepAmt_finalize (stream : Bool) (lastE : Option Exc) (r : Resp) :
    ∀ e ∈ (finalize stream lastE r).2, sleepAmt e = 0 := by
  rcases lastE with _ | ex
  · by_cases hst : stream <;>
      by_cases hr : 400 ≤ r.status ∧ r.status ≤ 599 <;>
        simp [finalize, hst, hr, sleepAmt]
  · simp [finalize]

theorem sleepSum_prefix_breakResult {stream : Bool} {lastE : Option Exc} {r : Resp}
    {a ri : Nat} {p : List Ev} (h : p <+: (breakResult stream lastE r a ri).events) :
    sleepSum p = 0 := by
  refine sleepSum_zero_of_forall fun e he => ?_
  have hmem := h.subset he
  rw [breakResult] at hmem
  rcases List.mem_cons.mp hmem with h1 | h2
  · rw [h1]; rfl
  · exact sleepAmt_finalize stream lastE r e h2

theorem loop_exc_capzero {pol : EffPolicy} {transport : Nat → TOutcome} {rng : Nat → ℚ}
    {stream : Bool} {a : Nat} {e : Exc} (htr : transport a = .exc e)
    (h : is_retryable_exception e = true) (rl : Nat) {cum : ℚ} {ri : Nat}
    (lastE : Option Exc)
    (hover : cum + (computeBackoffDraw rng ri (a + 1) pol.backoff_base pol.backoff_jitter).1
        > pol.max_backoff_total)
    (hrem : pol.max_backoff_total - cum ≤ 0) :
    requestLoop pol transport rng stream (rl + 1) a cum ri lastE =
      ⟨.raisedExc e, [Ev.call a],
       (computeBackoffDraw rng ri (a + 1) pol.backoff_base pol.backoff_jitter).2⟩ := by
  have hle : max 0 (pol.max_backoff_total - cum) ≤ 0 := max_le le_rfl hrem
  rw [requestLoop.eq_def]
  simp [htr, h, hover, hle]

/-- C6: for a 1-based retry index n, the computed backoff with jitter
disabled is exactly backoff_base * 2 ^ (n - 1); with jitter > 0 it is
that exponential term plus a uniform draw jitter * u from [0, jitter)
(for a random() value u in [0, 1)), and with a non-negative base the
computed backoff is non-negative. -/
theorem c6_backoff_formula (n : Nat) (base jitter u : ℚ) (hn : 1 ≤ n) :
    (jitter ≤ 0 → compute_backoff n base jitter u = base * 2 ^ (n - 1))
    ∧ (0 < jitter → 0 ≤ u → u < 1 →
        compute_backoff n base jitter u = base * 2 ^ (n - 1) + jitter * u
          ∧ 0 ≤ jitter * u ∧ jitter * u < jitter)
    ∧ (0 ≤ base → 0 ≤ u → 0 ≤ compute_backoff n base jitter u) := by
  refine ⟨?_, ?_, ?_⟩
  · intro hj
    simp [compute_backoff, not_lt.mpr hj]
  · intro hj hu hu1
    have hmax : max 0 jitter = jitter := max_eq_right hj.le
    refine ⟨?_, mul_nonneg hj.le hu, ?_⟩
    · simp only [compute_backoff, uniform, if_pos hj, hmax]
      ring
    · calc jitter * u < jitter * 1 := mul_lt_mul_of_pos_left hu1 hj
        _ = jitter := mul_one jitter
  · intro hb hu
    have h2 : (0:ℚ) ≤ 2 ^ (n - 1) := by positivity
    simp only [compute_backoff, uniform]
    by_cases hj : 0 < jitter
    · rw [if_pos hj]
      have hmax : max 0 jitter = jitter := max_eq_right hj.le
      rw [hmax]
      nlinarith
    · rw [if_neg hj]
      simpa using mul_nonneg hb h2

/-- Witness for c6_backoff_formula at n = 1, base = 1/2, jitter = 1/5,
u = 1/2. -/
theorem c6_backoff_formula_witness :
    compute_backoff 1 (1/2) (1/5) (1/2) = (1/2) * 2 ^ (1 - 1) + (1/5) * (1/2) :=
  ((c6_backoff_formula 1 (1/2) (1/5) (1/2) (by norm_num)).2.1 (by norm_num) (by norm_num)
    (by norm_num)).1

/-- C4: on a 429 response, a Retry-After header parsing as a non-negative
integer v replaces the computed backoff entirely (no RNG draw happens);
a missing header, a header that fails to parse, or one parsing negative
is silently ignored and the computed exponential-plus-jitter backoff is
used; the override never applies to a 5xx status; in particular the
header values "abc" and "-1" are ignored without error. -/
theorem c4_retry_after_override (r : Resp) (rng : Nat → ℚ) (base jitter : ℚ) (a ri : Nat) :
    (r.status = 429 → ∀ hdr : String, ∀ v : Int, r.retryAfter = some hdr →
        pyInt hdr = some v → 0 ≤ v →
        sleepStep rng base jitter r a ri = ((v : ℚ), ri))
    ∧ ((∀ hdr : String, ∀ v : Int, r.retryAfter = some hdr → pyInt hdr = some v → v < 0) →
        sleepStep rng base jitter r a ri = computeBackoffDraw rng ri (a + 1) base jitter)
    ∧ (500 ≤ r.status → r.status ≤ 599 →
        sleepStep rng base jitter r a ri = computeBackoffDraw rng ri (a + 1) base jitter)
    ∧ (∀ cr rid, sleepStep rng base jitter ⟨429, some "abc", cr, rid⟩ a ri
        = computeBackoffDraw rng ri (a + 1) base jitter)
    ∧ (∀ cr rid, sleepStep rng base jitter ⟨429, some "-1", cr, rid⟩ a ri
        = computeBackoffDraw rng ri (a + 1) base jitter) := by
  refine ⟨?_, ?_, ?_, ?_, ?_⟩
  · intro h429 hdr v hh hp hv
    simp [sleepStep, retryAfterOverride, retryAfterSeconds, h429, hh, hp, hv]
  · intro hneg
    rcases hra : r.retryAfter with _ | hdr
    · simp [sleepStep, retryAfterOverride, retryAfterSeconds, hra]
    · rcases hp : pyInt hdr with _ | v
      · simp [sleepStep, retryAfterOverride, retryAfterSeconds, hra, hp]
      · have hv := hneg hdr v hra hp
        simp [sleepStep, retryAfterOverride, retryAfterSeconds, hra, hp, not_le.mpr hv]
  · intro h5 h5b
    have hne : ¬ r.status = 429 := by omega
    simp [sleepStep, retryAfterOverride, hne]
  · intro cr rid
    simp [sleepStep, retryAfterOverride, retryAfterSeconds,
      show pyInt "abc" = none by decide]
  · intro cr rid
    simp [sleepStep, retryAfterOverride, retryAfterSeconds,
      show pyInt "-1" = some (-1) by decide, show ¬ ((0:Int) ≤ -1) by decide]

/-- Witness for c4_retry_after_override: with a Retry-After of "7" on a
429 response the sleep is 7 seconds and the RNG is not consumed, even
with jitter enabled. -/
theorem c4_retry_after_override_witness :
    sleepStep (fun _ => 0) (1/2) (1/5) ⟨429, some "7", false, 0⟩ 0 5 = (7, 5) := by
  have h := (c4_retry_after_override ⟨429, some "7", false, 0⟩ (fun _ => 0) (1/2) (1/5) 0 5).1
    rfl "7" 7 rfl (by decide) (by decide)
  simpa using h

/-- C9: per-call overrides leave the stored defaults untouched: the client
state request() leaves behind has the same four retry-policy fields, and
a later call without overrides resolves the same effective policy as one
on the original client. -/
theorem c9_overrides_do_not_mutate_defaults (c : Client) (transport : Nat → TOutcome)
    (rng : Nat → ℚ) (stream : Bool) (mro : Option Nat) (bbo bjo mbto : Option ℚ) :
    ((request c transport rng stream mro bbo bjo mbto).2.max_retries = c.max_retries
      ∧ (request c transport rng stream mro bbo bjo mbto).2.backoff_base = c.backoff_base
      ∧ (request c transport rng stream mro bbo bjo mbto).2.backoff_jitter = c.backoff_jitter
      ∧ (request c transport rng stream mro bbo bjo mbto).2.max_backoff_total
          = c.max_backoff_total)
    ∧ resolvePolicy (request c transport rng stream mro bbo bjo mbto).2 none none none none
        = resolvePolicy c none none none none :=
  ⟨⟨rfl, rfl, rfl, rfl⟩, rfl⟩

/-- C1 (code behavior at the failing input): with the default policy, a
retryable Timeout on the first attempt followed by a 200 response on the
second makes request() re-raise the stale Timeout instead of returning
the 200 response, because last_exception is never cleared. -/
theorem c1_stale_exception_overrides_response :
    (request defaultClient c1Transport (fun _ => 0) false none none none none).1.outcome
        = .raisedExc ⟨.timeout, 0⟩
    ∧ (request defaultClient c1Transport (fun _ => 0) false none none none none).1.outcome
        ≠ .returned ⟨200, none, false, 1⟩ :=
  ⟨by decide, by decide⟩

/-- C8: a response with a retryable status that is discarded in favor of
a retry is closed before the sleep and before the next transport call:
the trace of the iteration is the call, then the close of exactly that
response, then the sleep, and the continuation trace starts with the
next transport call. -/
theorem c8_discarded_response_closed_first (pol : EffPolicy) (transport : Nat → TOutcome)
    (rng : Nat → ℚ) (stream : Bool) (rl a : Nat) (cum : ℚ) (ri : Nat) (lastE : Option Exc)
    (r : Resp) (htr : transport a = .resp r) (hst : is_retryable_status r.status = true)
    (hbud : cum + (sleepStep rng pol.backoff_base pol.backoff_jitter r a ri).1
        ≤ pol.max_backoff_total ∨ cum < pol.max_backoff_total) :
    ∃ d ri2,
      (requestLoop pol transport rng stream (rl + 1) a cum ri lastE).events =
        Ev.call a :: Ev.closeResp r.rid r.closeRaises :: Ev.sleep d ::
          (requestLoop pol transport rng stream rl (a + 1) (cum + d) ri2 lastE).events
      ∧ (requestLoop pol transport rng stream rl (a + 1) (cum + d) ri2 lastE).events.head?
          = some (Ev.call (a + 1)) := by
  by_cases hover : cum + (sleepStep rng pol.backoff_base pol.backoff_jitter r a ri).1
      > pol.max_backoff_total
  · have hrem : 0 < pol.max_backoff_total - cum := by
      rcases hbud with hb | hb
      · linarith
      · linarith
    have hcs : cum + (pol.max_backoff_total - cum) = pol.max_backoff_total := by ring
    refine ⟨pol.max_backoff_total - cum,
      (sleepStep rng pol.backoff_base pol.backoff_jitter r a ri).2, ?_, ?_⟩
    · rw [hcs, loop_resp_capped htr hst rl lastE hover hrem]
    · rw [hcs]
      exact loop_events_head pol transport rng stream rl (a + 1) pol.max_backoff_total
        (sleepStep rng pol.backoff_base pol.backoff_jitter r a ri).2 lastE
  · refine ⟨(sleepStep rng pol.backoff_base pol.backoff_jitter r a ri).1,
      (sleepStep rng pol.backoff_base pol.backoff_jitter r a ri).2, ?_, ?_⟩
    · rw [loop_resp_uncapped htr hst rl lastE hover]
    · exact loop_events_head pol transport rng stream rl (a + 1)
        (cum + (sleepStep rng pol.backoff_base pol.backoff_jitter r a ri).1)
        (sleepStep rng pol.backoff_base pol.backoff_jitter r a ri).2 lastE

theorem breakResult_raisedExc {stream : Bool} {lastE : Option Exc} {r : Resp} {a ri : Nat}
    {e : Exc} (h : (breakResult stream lastE r a ri).outcome = .raisedExc e) :
    lastE = some e := by
  rcases hle : lastE with _ | e2
  · subst hle
    by_cases hr : 400 ≤ r.status ∧ r.status ≤ 599 <;>
      by_cases hs : stream <;>
        simp [breakResult, finalize, hr, hs] at h
  · subst hle
    simp [breakResult, finalize] at h
    rw [h]

theorem loop_raisedExc_source (pol : EffPolicy) (transport : Nat → TOutcome) (rng : Nat → ℚ)
    (stream : Bool) :
    ∀ rl a (cum : ℚ) (ri : Nat) (lastE : Option Exc) (e : Exc),
      (requestLoop pol transport rng stream rl a cum ri lastE).outcome = .raisedExc e →
      lastE = some e ∨ ∃ i, transport i = .exc e := by
  intro rl
  induction rl with
  | zero =>
    intro a cum ri lastE e h
    rcases htr : transport a with r | ex
    · cases hst : is_retryable_status r.status with
      | true =>
        rw [loop_resp_exhausted htr hst] at h
        exact Or.inl (breakResult_raisedExc h)
      | false =>
        rw [loop_resp_terminal htr hst] at h
        exact Or.inl (breakResult_raisedExc h)
    · cases hre : is_retryable_exception ex with
      | true =>
        rw [loop_exc_exhausted htr hre] at h
        simp at h
        exact Or.inr ⟨a, by rw [htr, h]⟩
      | false =>
        rw [loop_exc_nonretry htr hre] at h
        simp at h
        exact Or.inr ⟨a, by rw [htr, h]⟩
  | succ rl ih =>
    intro a cum ri lastE e h
    rcases htr : transport a with r | ex
    · cases hst : is_retryable_status r.status with
      | true =>
        by_cases hover : cum + (sleepStep rng pol.backoff_base pol.backoff_jitter r a ri).1
            > pol.max_backoff_total
        · by_cases hrem : pol.max_backoff_total - cum ≤ 0
          · rw [loop_resp_capzero htr hst rl lastE hover hrem] at h
            exact Or.inl (breakResult_raisedExc h)
          · have hrem2 : 0 < pol.max_backoff_total - cum := by linarith
            rw [loop_resp_capped htr hst rl lastE hover hrem2] at h
            exact ih (a + 1) pol.max_backoff_total
              (sleepStep rng pol.backoff_base pol.backoff_jitter r a ri).2 lastE e h
        · rw [loop_resp_uncapped htr hst rl lastE hover] at h
          exact ih (a + 1) (cum + (sleepStep rng pol.backoff_base pol.backoff_jitter r a ri).1)
            (sleepStep rng pol.backoff_base pol.backoff_jitter r a ri).2 lastE e h
      | false =>
        rw [loop_resp_terminal htr hst] at h
        exact Or.inl (breakResult_raisedExc h)
    · cases hre : is_retryable_exception ex with
      | true =>
        by_cases hover : cum + (computeBackoffDraw rng ri (a + 1)
            pol.backoff_base pol.backoff_jitter).1 > pol.max_backoff_total
        · by_cases hrem : pol.max_backoff_total - cum ≤ 0
          · rw [loop_exc_capzero htr hre rl lastE hover hrem] at h
            simp at h
            exact Or.inr ⟨a, by rw [htr, h]⟩
          · have hrem2 : 0 < pol.max_backoff_total - cum := by linarith
            rw [loop_exc_capped htr hre rl lastE hover hrem2] at h
            rcases ih (a + 1) pol.max_backoff_total
                (computeBackoffDraw rng ri (a + 1) pol.backoff_base pol.backoff_jitter).2
                (some ex) e h with h1 | h2
            · have : ex = e := by injection h1
              exact Or.inr ⟨a, by rw [htr, this]⟩
            · exact Or.inr h2
        · rw [loop_exc_uncapped htr hre rl lastE hover] at h
          rcases ih (a + 1) (cum + (computeBackoffDraw rng ri (a + 1)
              pol.backoff_base pol.backoff_jitter).1)
              (computeBackoffDraw rng ri (a + 1) pol.backoff_base pol.backoff_jitter).2
              (some ex) e h with h1 | h2
          · have : ex = e := by injection h1
            exact Or.inr ⟨a, by rw [htr, this]⟩
          · exact Or.inr h2
      | false =>
        rw [loop_exc_nonretry htr hre] at h
        simp at h
        exact Or.inr ⟨a, by rw [htr, h]⟩

/-- C7: the exception classifier marks exactly the kinds other than
timeout, connection failure, protocol violation, incomplete read and bad
status line as non-retryable; a non-retryable transport fault ends the
call immediately on its first occurrence, with no sleep, no close and no
further transport call, re-raising that very exception; and whenever a
call started with no pending failure ends by raising a transport fault,
the raised exception is verbatim one returned by the transport. -/
theorem c7_nonretryable_faults (pol : EffPolicy) (transport : Nat → TOutcome) (rng : Nat → ℚ)
    (stream : Bool) :
    (∀ e : Exc, is_retryable_exception e = false ↔ e.kind = ExcKind.other)
    ∧ (∀ rl a (cum : ℚ) (ri : Nat) (lastE : Option Exc) (e : Exc),
        transport a = .exc e → is_retryable_exception e = false →
        requestLoop pol transport rng stream rl a cum ri lastE
          = ⟨.raisedExc e, [Ev.call a], ri⟩)
    ∧ (∀ rl a (cum : ℚ) (ri : Nat) (e : Exc),
        (requestLoop pol transport rng stream rl a cum ri none).outcome = .raisedExc e →
        ∃ i, transport i = .exc e) := by
  refine ⟨?_, ?_, ?_⟩
  · intro e
    cases e with
    | mk k id => cases k <;> simp [is_retryable_exception]
  · intro rl a cum ri lastE e htr hre
    exact loop_exc_nonretry htr hre rl cum ri lastE
  · intro rl a cum ri e h
    rcases loop_raisedExc_source pol transport rng stream rl a cum ri none e h with h1 | h2
    · simp at h1
    · exact h2

/-- Witness for c7_nonretryable_faults: an unclassified fault on the
first attempt propagates at once under the default policy. -/
theorem c7_nonretryable_faults_witness :
    requestLoop ⟨3, 1/2, 1/5, 15⟩ c7Transport (fun _ => 0) false 3 0 0 0 none
      = ⟨.raisedExc ⟨.other, 5⟩, [Ev.call 0], 0⟩ :=
  (c7_nonretryable_faults ⟨3, 1/2, 1/5, 15⟩ c7Transport (fun _ => 0) false).2.1
    3 0 0 0 none ⟨.other, 5⟩ rfl (by decide)

/-- C3 counterexample: with maxBackoffTotal overridden to 0 and every
attempt returning 429 with Retry-After 0, the remaining budget is <= 0
whenever a retry is due, yet the loop does not terminate immediately: it
performs zero-second sleeps and all four transport calls instead of the
single call the claim predicts. -/
theorem c3_counterexample :
    numCalls (request defaultClient c3Transport (fun _ => 0) false none none none
        (some 0)).1.events = 4
    ∧ numCalls (request defaultClient c3Transport (fun _ => 0) false none none none
        (some 0)).1.events ≠ 1
    ∧ Ev.sleep 0 ∈ (request defaultClient c3Transport (fun _ => 0) false none none none
        (some 0)).1.events :=
  ⟨by decide, by decide, by decide⟩

/-- C3 (amended): when a retry is due, the remaining budget is <= 0 and
the proposed sleep is strictly positive, no sleep occurs and the loop
terminates immediately, surfacing the last observed failure (the
response through validation, or the just-caught retryable exception); a
proposed sleep of zero is instead performed and the retry proceeds.
When the remaining budget is positive but smaller than the proposed
sleep, exactly the remainder is slept, once, leaving the cumulative
sleep equal to maxBackoffTotal, so any later retryable outcome with a
positive proposed sleep terminates the loop with no additional sleep. -/
theorem c3_budget_exhaustion (pol : EffPolicy) (transport : Nat → TOutcome) (rng : Nat → ℚ)
    (stream : Bool) :
    (∀ rl a (cum : ℚ) (ri : Nat) (lastE : Option Exc) (r : Resp),
        transport a = .resp r → is_retryable_status r.status = true →
        pol.max_backoff_total - cum ≤ 0 →
        0 < (sleepStep rng pol.backoff_base pol.backoff_jitter r a ri).1 →
        requestLoop pol transport rng stream (rl + 1) a cum ri lastE
          = breakResult stream lastE r a
              (sleepStep rng pol.backoff_base pol.backoff_jitter r a ri).2)
    ∧ (∀ rl a (cum : ℚ) (ri : Nat) (lastE : Option Exc) (e : Exc),
        transport a = .exc e → is_retryable_exception e = true →
        pol.max_backoff_total - cum ≤ 0 →
        0 < (computeBackoffDraw rng ri (a + 1) pol.backoff_base pol.backoff_jitter).1 →
        requestLoop pol transport rng stream (rl + 1) a cum ri lastE
          = ⟨.raisedExc e, [Ev.call a],
             (computeBackoffDraw rng ri (a + 1) pol.backoff_base pol.backoff_jitter).2⟩)
    ∧ (∀ rl a (cum : ℚ) (ri : Nat) (lastE : Option Exc) (r : Resp),
        transport a = .resp r → is_retryable_status r.status = true →
        cum + (sleepStep rng pol.backoff_base pol.backoff_jitter r a ri).1
          > pol.max_backoff_total →
        0 < pol.max_backoff_total - cum →
        (requestLoop pol transport rng stream (rl + 1) a cum ri lastE).events
          = Ev.call a :: Ev.closeResp r.rid r.closeRaises ::
              Ev.sleep (pol.max_backoff_total - cum) ::
              (requestLoop pol transport rng stream rl (a + 1) pol.max_backoff_total
                (sleepStep rng pol.backoff_base pol.backoff_jitter r a ri).2 lastE).events) := by
  refine ⟨?_, ?_, ?_⟩
  · intro rl a cum ri lastE r htr hst hrem hpos
    have hover : cum + (sleepStep rng pol.backoff_base pol.backoff_jitter r a ri).1
        > pol.max_backoff_total := by linarith
    exact loop_resp_capzero htr hst rl lastE hover hrem
  · intro rl a cum ri lastE e htr hre hrem hpos
    have hover : cum + (computeBackoffDraw rng ri (a + 1) pol.backoff_base
        pol.backoff_jitter).1 > pol.max_backoff_total := by linarith
    exact loop_exc_capzero htr hre rl lastE hover hrem
  · intro rl a cum ri lastE r htr hst hover hrem
    rw [loop_resp_capped htr hst rl lastE hover hrem]

/-- Witness for c3_budget_exhaustion: a zero budget with a positive
proposed sleep ends the loop at the first retryable 503. -/
theorem c3_budget_exhaustion_witness :
    requestLoop ⟨3, 1, 0, 0⟩ c5Transport (fun _ => 0) false (2 + 1) 0 0 0 none
      = breakResult false none ⟨503, none, false, 0⟩ 0
          (sleepStep (fun _ => 0) 1 0 ⟨503, none, false, 0⟩ 0 0).2 :=
  (c3_budget_exhaustion ⟨3, 1, 0, 0⟩ c5Transport (fun _ => 0) false).1 2 0 0 0 none
    ⟨503, none, false, 0⟩ rfl (by decide) (by decide) (by decide)

theorem sleepSum_prefix_call {a : Nat} {p : List Ev} (h : p <+: [Ev.call a]) :
    sleepSum p = 0 := by
  refine sleepSum_zero_of_forall fun e he => ?_
  have hmem := h.subset he
  simp at hmem
  rw [hmem]
  rfl

theorem c2aux (pol : EffPolicy) (transport : Nat → TOutcome) (rng : Nat → ℚ) (stream : Bool) :
    ∀ rl a (cum : ℚ) (ri : Nat) (lastE : Option Exc), cum ≤ pol.max_backoff_total →
      ∀ p, p <+: (requestLoop pol transport rng stream rl a cum ri lastE).events →
        cum + sleepSum p ≤ pol.max_backoff_total := by
  intro rl
  induction rl with
  | zero =>
    intro a cum ri lastE hcum p hp
    rcases htr : transport a with r | ex
    · cases hst : is_retryable_status r.status with
      | true =>
        rw [loop_resp_exhausted htr hst] at hp
        rw [sleepSum_prefix_breakResult hp]
        linarith
      | false =>
        rw [loop_resp_terminal htr hst] at hp
        rw [sleepSum_prefix_breakResult hp]
        linarith
    · cases hre : is_retryable_exception ex with
      | true =>
        rw [loop_exc_exhausted htr hre] at hp
        rw [sleepSum_prefix_call hp]
        linarith
      | false =>
        rw [loop_exc_nonretry htr hre] at hp
        rw [sleepSum_prefix_call hp]
        linarith
  | succ rl ih =>
    intro a cum ri lastE hcum p hp
    rcases htr : transport a with r | ex
    · cases hst : is_retryable_status r.status with
      | true =>
        by_cases hover : cum + (sleepStep rng pol.backoff_base pol.backoff_jitter r a ri).1
            > pol.max_backoff_total
        · by_cases hrem : pol.max_backoff_total - cum ≤ 0
          · rw [loop_resp_capzero htr hst rl lastE hover hrem] at hp
            rw [sleepSum_prefix_breakResult hp]
            linarith
          · have hrem2 : 0 < pol.max_backoff_total - cum := by linarith
            rw [loop_resp_capped htr hst rl lastE hover hrem2] at hp
            rcases prefix_cons_cases hp with rfl | ⟨q1, rfl, hq1⟩
            · rw [sleepSum_nil]; linarith
            rcases prefix_cons_cases hq1 with rfl | ⟨q2, rfl, hq2⟩
            · simp [sleepSum_cons, sleepSum_nil, sleepAmt]; linarith
            rcases prefix_cons_cases hq2 with rfl | ⟨q3, rfl, hq3⟩
            · simp [sleepSum_cons, sleepSum_nil, sleepAmt]; linarith
            have hrec := ih (a + 1) pol.max_backoff_total
              (sleepStep rng pol.backoff_base pol.backoff_jitter r a ri).2 lastE le_rfl q3 hq3
            simp only [sleepSum_cons, sleepAmt]
            linarith
        · have hle : cum + (sleepStep rng pol.backoff_base pol.backoff_jitter r a ri).1
              ≤ pol.max_backoff_total := not_lt.mp hover
          rw [loop_resp_uncapped htr hst rl lastE hover] at hp
          rcases prefix_cons_cases hp with rfl | ⟨q1, rfl, hq1⟩
          · rw [sleepSum_nil]; linarith
          rcases prefix_cons_cases hq1 with rfl | ⟨q2, rfl, hq2⟩
          · simp [sleepSum_cons, sleepSum_nil, sleepAmt]; linarith
          rcases prefix_cons_cases hq2 with rfl | ⟨q3, rfl, hq3⟩
          · simp [sleepSum_cons, sleepSum_nil, sleepAmt]; linarith
          have hrec := ih (a + 1)
            (cum + (sleepStep rng pol.backoff_base pol.backoff_jitter r a ri).1)
            (sleepStep rng pol.backoff_base pol.backoff_jitter r a ri).2 lastE hle q3 hq3
          simp only [sleepSum_cons, sleepAmt]
          linarith
      | false =>
        rw [loop_resp_terminal htr hst] at hp
        rw [sleepSum_prefix_breakResult hp]
        linarith
    · cases hre : is_retryable_exception ex with
      | true =>
        by_cases hover : cum + (computeBackoffDraw rng ri (a + 1)
            pol.backoff_base pol.backoff_jitter).1 > pol.max_backoff_total
        · by_cases hrem : pol.max_backoff_total - cum ≤ 0
          · rw [loop_exc_capzero htr hre rl lastE hover hrem] at hp
            rw [sleepSum_prefix_call hp]
            linarith
          · have hrem2 : 0 < pol.max_backoff_total - cum := by linarith
            rw [loop_exc_capped htr hre rl lastE hover hrem2] at hp
            rcases prefix_cons_cases hp with rfl | ⟨q1, rfl, hq1⟩
            · rw [sleepSum_nil]; linarith
            rcases prefix_cons_cases hq1 with rfl | ⟨q2, rfl, hq2⟩
            · simp [sleepSum_cons, sleepSum_nil, sleepAmt]; linarith
            have hrec := ih (a + 1) pol.max_backoff_total
              (computeBackoffDraw rng ri (a + 1) pol.backoff_base pol.backoff_jitter).2
              (some ex) le_rfl q2 hq2
            simp only [sleepSum_cons, sleepAmt]
            linarith
        · have hle : cum + (computeBackoffDraw rng ri (a + 1)
              pol.backoff_base pol.backoff_jitter).1 ≤ pol.max_backoff_total := not_lt.mp hover
          rw [loop_exc_uncapped htr hre rl lastE hover] at hp
          rcases prefix_cons_cases hp with rfl | ⟨q1, rfl, hq1⟩
          · rw [sleepSum_nil]; linarith
          rcases prefix_cons_cases hq1 with rfl | ⟨q2, rfl, hq2⟩
          · simp [sleepSum_cons, sleepSum_nil, sleepAmt]; linarith
          have hrec := ih (a + 1)
            (cum + (computeBackoffDraw rng ri (a + 1) pol.backoff_base pol.backoff_jitter).1)
            (computeBackoffDraw rng ri (a + 1) pol.backoff_base pol.backoff_jitter).2
            (some ex) hle q2 hq2
          simp only [sleepSum_cons, sleepAmt]
          linarith
      | false =>
        rw [loop_exc_nonretry htr hre] at hp
        rw [sleepSum_prefix_call hp]
        linarith

/-- C2: with a non-negative effective budget, the total seconds slept in
any prefix of the trace of a call never exceed maxBackoffTotal; and a
proposed sleep that would push the total past the budget, with positive
remaining budget, is clipped to exactly maxBackoffTotal minus the sleep
already accumulated (in both the retryable-status and the
retryable-exception branch). -/
theorem c2_cumulative_sleep_bounded (c : Client) (transport : Nat → TOutcome) (rng : Nat → ℚ)
    (stream : Bool) (mro : Option Nat) (bbo bjo mbto : Option ℚ)
    (hmbt : 0 ≤ (resolvePolicy c mro bbo bjo mbto).max_backoff_total) :
    (∀ p, p <+: (request c transport rng stream mro bbo bjo mbto).1.events →
        sleepSum p ≤ (resolvePolicy c mro bbo bjo mbto).max_backoff_total)
    ∧ (∀ (pol : EffPolicy) rl a (cum : ℚ) (ri : Nat) (lastE : Option Exc) (r : Resp),
        transport a = .resp r → is_retryable_status r.status = true →
        cum + (sleepStep rng pol.backoff_base pol.backoff_jitter r a ri).1
          > pol.max_backoff_total →
        0 < pol.max_backoff_total - cum →
        ∃ t, (requestLoop pol transport rng stream (rl + 1) a cum ri lastE).events
          = Ev.call a :: Ev.closeResp r.rid r.closeRaises ::
              Ev.sleep (pol.max_backoff_total - cum) :: t)
    ∧ (∀ (pol : EffPolicy) rl a (cum : ℚ) (ri : Nat) (lastE : Option Exc) (e : Exc),
        transport a = .exc e → is_retryable_exception e = true →
        cum + (computeBackoffDraw rng ri (a + 1) pol.backoff_base pol.backoff_jitter).1
          > pol.max_backoff_total →
        0 < pol.max_backoff_total - cum →
        ∃ t, (requestLoop pol transport rng stream (rl + 1) a cum ri lastE).events
          = Ev.call a :: Ev.sleep (pol.max_backoff_total - cum) :: t) := by
  refine ⟨?_, ?_, ?_⟩
  · intro p hp
    have h := c2aux (resolvePolicy c mro bbo bjo mbto) transport rng stream
      (resolvePolicy c mro bbo bjo mbto).max_retries 0 0 c.rngIdx none hmbt p hp
    linarith
  · intro pol rl a cum ri lastE r htr hst hover hrem
    rw [loop_resp_capped htr hst rl lastE hover hrem]
    exact ⟨_, rfl⟩
  · intro pol rl a cum ri lastE e htr hre hover hrem
    rw [loop_exc_capped htr hre rl lastE hover hrem]
    exact ⟨_, rfl⟩

/-- Witness for c2_cumulative_sleep_bounded: the sleeps in the trace
prefix up to the second transport call of the default-policy run against
plain 503 responses stay within the budget of 15 seconds. -/
theorem c2_cumulative_sleep_bounded_witness :
    sleepSum [Ev.call 0, Ev.closeResp 0 false, Ev.sleep (1/2), Ev.call 1]
      ≤ (resolvePolicy defaultClient none none none none).max_backoff_total :=
  (c2_cumulative_sleep_bounded defaultClient c5Transport (fun _ => 0) false none none none
    none (by decide)).1 [Ev.call 0, Ev.closeResp 0 false, Ev.sleep (1/2), Ev.call 1]
    ⟨[Ev.closeResp 1 false, Ev.sleep 1, Ev.call 2, Ev.closeResp 2 false, Ev.sleep 2,
      Ev.call 3, Ev.closeResp 3 false], by decide⟩

/-- Witness for c8_discarded_response_closed_first: first 503 of the
plain-503 script under the default policy. -/
theorem c8_discarded_response_closed_first_witness :
    ∃ d ri2,
      (requestLoop ⟨3, 1/2, 1/5, 15⟩ c5Transport (fun _ => 0) false (2 + 1) 0 0 0 none).events =
        Ev.call 0 :: Ev.closeResp 0 false :: Ev.sleep d ::
          (requestLoop ⟨3, 1/2, 1/5, 15⟩ c5Transport (fun _ => 0) false 2 (0 + 1) (0 + d) ri2
            none).events
      ∧ (requestLoop ⟨3, 1/2, 1/5, 15⟩ c5Transport (fun _ => 0) false 2 (0 + 1) (0 + d) ri2
          none).events.head? = some (Ev.call (0 + 1)) :=
  c8_discarded_response_closed_first ⟨3, 1/2, 1/5, 15⟩ c5Transport (fun _ => 0) false 2 0 0 0
    none ⟨503, none, false, 0⟩ rfl (by decide) (Or.inl (by decide))

theorem sleepStep_proposedSeq (pol : EffPolicy) (resp : Nat → Resp) (rng : Nat → ℚ)
    (ri0 : Nat) (j : Nat) :
    sleepStep rng pol.backoff_base pol.backoff_jitter (resp j) j (riAt pol resp rng ri0 j)
      = proposedSeq pol resp rng ri0 j := by
  cases j <;> rfl

theorem c5aux (pol : EffPolicy) (resp : Nat → Resp) (rng : Nat → ℚ) (stream : Bool)
    (ri0 : Nat) (hall : ∀ i, is_retryable_status (resp i).status = true) :
    ∀ rl j,
      (∀ i, i < rl →
        cumAt pol resp rng ri0 (j + i) + (proposedSeq pol resp rng ri0 (j + i)).1
          ≤ pol.max_backoff_total) →
      numCalls (requestLoop pol (fun i => .resp (resp i)) rng stream rl j
          (cumAt pol resp rng ri0 j) (riAt pol resp rng ri0 j) none).events = rl + 1
      ∧ (requestLoop pol (fun i => .resp (resp i)) rng stream rl j
          (cumAt pol resp rng ri0 j) (riAt pol resp rng ri0 j) none).outcome
        = .raisedHTTPError (resp (j + rl)) := by
  intro rl
  induction rl with
  | zero =>
    intro j hbud
    rw [loop_resp_exhausted rfl (hall j)]
    refine ⟨numCalls_breakResult stream none (resp j) j (riAt pol resp rng ri0 j), ?_⟩
    rw [breakResult]
    rw [finalize_retryable (hall j)]
    rfl
  | succ rl ih =>
    intro j hbud
    have hs := sleepStep_proposedSeq pol resp rng ri0 j
    have hb0 := hbud 0 (Nat.succ_pos rl)
    rw [Nat.add_zero] at hb0
    have hno : ¬ cumAt pol resp rng ri0 j
        + (sleepStep rng pol.backoff_base pol.backoff_jitter (resp j) j
            (riAt pol resp rng ri0 j)).1 > pol.max_backoff_total := by
      rw [hs]
      linarith
    rw [loop_resp_uncapped rfl (hall j) rl none hno]
    rw [hs]
    have hcum : cumAt pol resp rng ri0 j + (proposedSeq pol resp rng ri0 j).1
        = cumAt pol resp rng ri0 (j + 1) := rfl
    have hri : (proposedSeq pol resp rng ri0 j).2 = riAt pol resp rng ri0 (j + 1) := rfl
    rw [hcum, hri]
    have hbud2 : ∀ i, i < rl →
        cumAt pol resp rng ri0 ((j + 1) + i) + (proposedSeq pol resp rng ri0 ((j + 1) + i)).1
          ≤ pol.max_backoff_total := by
      intro i hi
      have heq : (j + 1) + i = j + (i + 1) := by omega
      rw [heq]
      exact hbud (i + 1) (Nat.succ_lt_succ hi)
    obtain ⟨h1, h2⟩ := ih (j + 1) hbud2
    constructor
    · rw [numCalls_cons, numCalls_cons, numCalls_cons, h1]
      simp [isCallEv]
      omega
    · have heq : (j + 1) + rl = j + (rl + 1) := by omega
      rw [heq] at h2
      exact h2

/-- C5 counterexample: with maxRetries overridden to 6, jitter disabled
and every attempt a plain 503, the default 15-second backoff budget is
exhausted after the fifth (capped) sleep, so the Executor makes only 6
transport calls where the claim predicts 6 + 1 = 7. -/
theorem c5_counterexample :
    numCalls (request defaultClient c5Transport (fun _ => 0) false (some 6) none (some 0)
        none).1.events = 6
    ∧ numCalls (request defaultClient c5Transport (fun _ => 0) false (some 6) none (some 0)
        none).1.events ≠ 6 + 1 :=
  ⟨by decide, by decide⟩

/-- C5 (amended): for every effective maxRetries k and every script of
retryable-status responses whose proposed sleeps, accumulated, never
exceed the effective maxBackoffTotal, the Executor performs exactly
k + 1 transport calls and the caller-visible result is derived from the
(k+1)th outcome: that final response raises through validation. When
the budget is exceeded, the loop may instead stop after fewer calls. -/
theorem c5_attempt_count (c : Client) (resp : Nat → Resp) (rng : Nat → ℚ) (stream : Bool)
    (mro : Option Nat) (bbo bjo mbto : Option ℚ)
    (hall : ∀ i, is_retryable_status (resp i).status = true)
    (hbud : ∀ i, i < (resolvePolicy c mro bbo bjo mbto).max_retries →
        cumAt (resolvePolicy c mro bbo bjo mbto) resp rng c.rngIdx i
            + (proposedSeq (resolvePolicy c mro bbo bjo mbto) resp rng c.rngIdx i).1
          ≤ (resolvePolicy c mro bbo bjo mbto).max_backoff_total) :
    numCalls (request c (fun i => .resp (resp i)) rng stream mro bbo bjo mbto).1.events
        = (resolvePolicy c mro bbo bjo mbto).max_retries + 1
    ∧ (request c (fun i => .resp (resp i)) rng stream mro bbo bjo mbto).1.outcome
        = .raisedHTTPError (resp ((resolvePolicy c mro bbo bjo mbto).max_retries)) := by
  have h := c5aux (resolvePolicy c mro bbo bjo mbto) resp rng stream c.rngIdx hall
    (resolvePolicy c mro bbo bjo mbto).max_retries 0
    (by intro i hi; rw [Nat.zero_add]; exact hbud i hi)
  obtain ⟨h1, h2⟩ := h
  rw [Nat.zero_add] at h2
  exact ⟨h1, h2⟩

/-- Witness for c5_attempt_count: default policy, plain 503 responses,
zero random draws: four calls, validation failure on the fourth 503. -/
theorem c5_attempt_count_witness :
    numCalls (request defaultClient (fun i => .resp (c5Resp i)) (fun _ => 0) false none none
        none none).1.events = 3 + 1
    ∧ (request defaultClient (fun i => .resp (c5Resp i)) (fun _ => 0) false none none none
        none).1.outcome = .raisedHTTPError (c5Resp 3) := by
  have h := c5_attempt_count defaultClient c5Resp (fun _ => 0) false none none none none
    (fun i => rfl) (by decide)
  exact ⟨h.1, h.2⟩

theorem finalize_scrub (stream : Bool) (lastE : Option Exc) (r : Resp) :
    finalize stream lastE (scrubResp r)
      = (scrubOutcome (finalize stream lastE r).1,
         (finalize stream lastE r).2.map scrubEv) := by
  rcases lastE with _ | e
  · by_cases hr : 400 ≤ r.status ∧ r.status ≤ 599 <;> by_cases hs : stream <;>
      simp [finalize, scrubResp, scrubOutcome, scrubEv, hr, hs]
  · simp [finalize, scrubOutcome]

theorem breakResult_scrub (stream : Bool) (lastE : Option Exc) (r : Resp) (a ri : Nat) :
    breakResult stream lastE (scrubResp r) a ri
      = ⟨scrubOutcome (breakResult stream lastE r a ri).outcome,
         (breakResult stream lastE r a ri).events.map scrubEv,
         (breakResult stream lastE r a ri).rngIdxAfter⟩ := by
  simp [breakResult, finalize_scrub, scrubEv]

/-- C10: a failure raised by a response close() is swallowed at both
close sites and never alters the call: running any script with all close
failures removed yields the same caller-visible outcome (up to the
close-behavior flag carried inside the final response object), the same
trace apart from the recorded swallowed failures, and the same RNG
consumption, from every loop state. -/
theorem c10_close_failures_swallowed (pol : EffPolicy) (transport : Nat → TOutcome)
    (rng : Nat → ℚ) (stream : Bool) (rl : Nat) (a : Nat) (cum : ℚ) (ri : Nat)
    (lastE : Option Exc) :
    (requestLoop pol (fun i => scrubT (transport i)) rng stream rl a cum ri lastE).outcome
        = scrubOutcome (requestLoop pol transport rng stream rl a cum ri lastE).outcome
    ∧ (requestLoop pol (fun i => scrubT (transport i)) rng stream rl a cum ri lastE).events
        = (requestLoop pol transport rng stream rl a cum ri lastE).events.map scrubEv
    ∧ (requestLoop pol (fun i => scrubT (transport i)) rng stream rl a cum ri
        lastE).rngIdxAfter
        = (requestLoop pol transport rng stream rl a cum ri lastE).rngIdxAfter := by
  induction rl generalizing a cum ri lastE with
  | zero =>
    rcases htr : transport a with r | ex
    · have htr2 : (fun i => scrubT (transport i)) a = .resp (scrubResp r) := by
        simp [htr, scrubT]
      cases hst : is_retryable_status r.status with
      | true =>
        have hst2 : is_retryable_status (scrubResp r).status = true := hst
        rw [loop_resp_exhausted htr2 hst2 cum ri lastE,
          loop_resp_exhausted htr hst cum ri lastE, breakResult_scrub]
        exact ⟨rfl, rfl, rfl⟩
      | false =>
        have hst2 : is_retryable_status (scrubResp r).status = false := hst
        rw [loop_resp_terminal htr2 hst2 0 cum ri lastE,
          loop_resp_terminal htr hst 0 cum ri lastE, breakResult_scrub]
        exact ⟨rfl, rfl, rfl⟩
    · have htr2 : (fun i => scrubT (transport i)) a = .exc ex := by
        simp [htr, scrubT]
      cases hre : is_retryable_exception ex with
      | true =>
        rw [loop_exc_exhausted htr2 hre cum ri lastE, loop_exc_exhausted htr hre cum ri lastE]
        exact ⟨rfl, by simp [scrubEv], rfl⟩
      | false =>
        rw [loop_exc_nonretry htr2 hre 0 cum ri lastE, loop_exc_nonretry htr hre 0 cum ri lastE]
        exact ⟨rfl, by simp [scrubEv], rfl⟩
  | succ rl ih =>
    rcases htr : transport a with r | ex
    · have htr2 : (fun i => scrubT (transport i)) a = .resp (scrubResp r) := by
        simp [htr, scrubT]
      cases hst : is_retryable_status r.status with
      | false =>
        have hst2 : is_retryable_status (scrubResp r).status = false := hst
        rw [loop_resp_terminal htr2 hst2 (rl + 1) cum ri lastE,
          loop_resp_terminal htr hst (rl + 1) cum ri lastE, breakResult_scrub]
        exact ⟨rfl, rfl, rfl⟩
      | true =>
        have hst2 : is_retryable_status (scrubResp r).status = true := hst
        have hss : sleepStep rng pol.backoff_base pol.backoff_jitter (scrubResp r) a ri
            = sleepStep rng pol.backoff_base pol.backoff_jitter r a ri := rfl
        by_cases hover : cum + (sleepStep rng pol.backoff_base pol.backoff_jitter r a ri).1
            > pol.max_backoff_total
        · by_cases hrem : pol.max_backoff_total - cum ≤ 0
          · rw [loop_resp_capzero htr2 hst2 rl lastE (by rw [hss]; exact hover) hrem,
              loop_resp_capzero htr hst rl lastE hover hrem, breakResult_scrub, hss]
            exact ⟨rfl, rfl, rfl⟩
          · have hrem2 : 0 < pol.max_backoff_total - cum := by linarith
            rw [loop_resp_capped htr2 hst2 rl lastE (by rw [hss]; exact hover) hrem2,
              loop_resp_capped htr hst rl lastE hover hrem2, hss]
            obtain ⟨i1, i2, i3⟩ := ih (a + 1) pol.max_backoff_total
              (sleepStep rng pol.backoff_base pol.backoff_jitter r a ri).2 lastE
            exact ⟨i1, by simp [scrubEv, scrubResp, i2], i3⟩
        · rw [loop_resp_uncapped htr2 hst2 rl lastE (by rw [hss]; exact hover),
            loop_resp_uncapped htr hst rl lastE hover, hss]
          obtain ⟨i1, i2, i3⟩ := ih (a + 1)
            (cum + (sleepStep rng pol.backoff_base pol.backoff_jitter r a ri).1)
            (sleepStep rng pol.backoff_base pol.backoff_jitter r a ri).2 lastE
          exact ⟨i1, by simp [scrubEv, scrubResp, i2], i3⟩
    · have htr2 : (fun i => scrubT (transport i)) a = .exc ex := by
        simp [htr, scrubT]
      cases hre : is_retryable_exception ex with
      | false =>
        rw [loop_exc_nonretry htr2 hre (rl + 1) cum ri lastE,
          loop_exc_nonretry htr hre (rl + 1) cum ri lastE]
        exact ⟨rfl, by simp [scrubEv], rfl⟩
      | true =>
        by_cases hover : cum + (computeBackoffDraw rng ri (a + 1)
            pol.backoff_base pol.backoff_jitter).1 > pol.max_backoff_total
        · by_cases hrem : pol.max_backoff_total - cum ≤ 0
          · rw [loop_exc_capzero htr2 hre rl lastE hover hrem,
              loop_exc_capzero htr hre rl lastE hover hrem]
            exact ⟨rfl, by simp [scrubEv], rfl⟩
          · have hrem2 : 0 < pol.max_backoff_total - cum := by linarith
            rw [loop_exc_capped htr2 hre rl lastE hover hrem2,
              loop_exc_capped htr hre rl lastE hover hrem2]
            obtain ⟨i1, i2, i3⟩ := ih (a + 1) pol.max_backoff_total
              (computeBackoffDraw rng ri (a + 1) pol.backoff_base pol.backoff_jitter).2
              (some ex)
            exact ⟨i1, by simp [scrubEv, i2], i3⟩
        · rw [loop_exc_uncapped htr2 hre rl lastE hover,
            loop_exc_uncapped htr hre rl lastE hover]
          obtain ⟨i1, i2, i3⟩ := ih (a + 1)
            (cum + (computeBackoffDraw rng ri (a + 1) pol.backoff_base pol.backoff_jitter).1)
            (computeBackoffDraw rng ri (a + 1) pol.backoff_base pol.backoff_jitter).2
            (some ex)
          exact ⟨i1, by simp [scrubEv, i2], i3⟩

end HttpRetry
